import Mathlib

/-!
Shallow embedding of the HeroesOfAnarchyPy game client (`src/main.py`),
covering the WebSocket transport worker (`WebSocketClientThread`) and the
message/input handlers of `GameWindow`.  Python floats are modelled as `Rat`:
every arithmetic operation the client performs on coordinates (unit steps,
`min`/`max` clamps, equality tests) is exact on the values that occur, so no
rounding behaviour is lost.  JSON values are modelled by an explicit inductive
type; `dict.get` returning Python `None` is modelled by `Option`, and a Python
exception escaping a handler is modelled by an explicit `Bool` flag carrying
the state as mutated up to the point of the raise (mirroring the
`try`/`except` in `GameWindow.websocket_on_message`).
-/

namespace HeroesClient

/-- A JSON value as produced by `json.loads`. -/
inductive JValue where
  | null
  | bool (b : Bool)
  | num (q : Rat)
  | str (s : String)
  | arr (elems : List JValue)
  | obj (fields : List (String × JValue))
  deriving Repr

/-- Python truthiness (`if payload:`) of a JSON-derived value. -/
def JValue.truthy : JValue → Bool
  | .null => false
  | .bool b => b
  | .num q => q != 0
  | .str s => s != ""
  | .arr xs => !xs.isEmpty
  | .obj fs => !fs.isEmpty

/-- `dict.get(key)`: `some v` when the key is present, `none` when absent
(Python returns `None`). -/
def jgetOpt : List (String × JValue) → String → Option JValue
  | [], _ => none
  | (k, v) :: rest, key => if k = key then some v else jgetOpt rest key

/-- `dict.get(key, default)`. -/
def jgetD (fs : List (String × JValue)) (key : String) (d : JValue) : JValue :=
  (jgetOpt fs key).getD d

/-- Python truthiness of a `dict.get` result (`None` is falsy). -/
def truthyOpt : Option JValue → Bool
  | none => false
  | some v => v.truthy

/-- Python `v == "SomeType"` for a `dict.get("type")` result. -/
def isType : Option JValue → String → Bool
  | some (.str s), t => s = t
  | _, _ => false

/-- Python `float(v)` on a JSON-derived value: numbers convert exactly,
booleans convert to 0/1; `None` (JSON `null`), lists and objects raise
(`none`).  Numeric strings would convert in Python, but the protocol carries
coordinates as JSON numbers, so strings are modelled as raising. -/
def pyFloat : JValue → Option Rat
  | .num q => some q
  | .bool b => some (if b then 1 else 0)
  | _ => none

/-- Python `float(dict.get(key))`: a missing key gives `None` and
`float(None)` raises. -/
def pyFloatOpt : Option JValue → Option Rat
  | none => none
  | some v => pyFloat v

/-- Python `==` between a JSON value and the client's integer user id
(`user_id == self.user_id`).  In Python `1 == 1.0 == True`, so numbers and
booleans compare numerically. -/
def pyEqInt (v : JValue) (n : Int) : Bool :=
  match v with
  | .num q => q = (n : Rat)
  | .bool b => (if b then (1 : Int) else 0) = n
  | _ => false

/-- Python `==` between two JSON-derived dict keys (used by the
`other_players` dict).  Numbers and booleans compare numerically, as in
Python; lists and dicts are unhashable and never occur as keys. -/
def pyEqJ (a b : JValue) : Bool :=
  match a, b with
  | .num p, .num q => p = q
  | .num p, .bool c => p = (if c then (1 : Rat) else 0)
  | .bool b, .num q => (if b then (1 : Rat) else 0) = q
  | .bool b, .bool c => b = c
  | .str s, .str t => s = t
  | .null, .null => true
  | _, _ => false

/-- An outbound `PlayerPosition` payload (`user_id`, `x`, `y`, `z`). -/
structure PosPayload where
  user_id : Int
  x : Rat
  y : Rat
  z : Rat
  deriving Repr, DecidableEq

/-- An outbound wire message built by the client. -/
inductive OutMsg where
  | playerPosition (p : PosPayload)
  | playerLogout (user_id : Int)
  deriving Repr, DecidableEq

/-- Observable side effects of the handlers:
`timerStart n` models `self.position_send_timer.start(n)`;
`timerStop` models `self.position_send_timer.stop()`;
`dialog t` models a blocking `QMessageBox.critical` with an identifying tag;
`send m delivered` models a call to `WebSocketClientThread.send_message`
(the frame is handed over — "submitted" — and `delivered` records whether the
socket was connected, i.e. whether `self.ws.send` actually ran or the frame
was silently dropped with a log line). -/
inductive Effect where
  | timerStart (intervalMs : Nat)
  | timerStop
  | dialog (tag : String)
  | send (m : OutMsg) (delivered : Bool)
  deriving Repr, DecidableEq

/-- The `GameWindow` state relevant to the protocol handlers, plus the
transport's `connected` test (`self.ws and self.ws.sock and
self.ws.sock.connected`). -/
structure GState where
  user_id : Int
  player_x : Rat
  player_y : Rat
  player_z : Rat
  /-- keys of the `other_players` dict (the values are Qt item groups,
  irrelevant to the claims). -/
  other_players : List JValue
  /-- `self._position_timer_started`. -/
  timer_started : Bool
  last_sent_x : Rat
  last_sent_y : Rat
  last_sent_z : Rat
  /-- whether the transport socket is currently connected. -/
  connected : Bool

/-- grid width in tiles (`MAP_WIDTH_TILES`). -/
def MAP_WIDTH_TILES : Rat := 40

/-- grid height in tiles (`MAP_HEIGHT_TILES`). -/
def MAP_HEIGHT_TILES : Rat := 20

/-- `WebSocketClientThread.send_message`: sends over the socket when
connected, otherwise logs and drops. -/
def send_message (s : GState) (m : OutMsg) : List Effect :=
  [Effect.send m s.connected]

/-- `GameWindow.send_current_position` (src/main.py lines 218-234): transmit
the local position only when it differs from the last sent position in any of
x/y/z, then record it as last sent. -/
def send_current_position (s : GState) : GState × List Effect :=
  if s.last_sent_x != s.player_x || s.last_sent_y != s.player_y
      || s.last_sent_z != s.player_z then
    let m := OutMsg.playerPosition
      { user_id := s.user_id, x := s.player_x, y := s.player_y, z := s.player_z }
    ({ s with last_sent_x := s.player_x, last_sent_y := s.player_y,
              last_sent_z := s.player_z }, send_message s m)
  else
    (s, [])

/-- `GameWindow.update_player_visual`, restricted to its effect on the
`other_players` dict: the local id never touches the dict; a non-local id is
inserted when absent.  (All other work in that method is drawing.) -/
def update_player_visual (s : GState) (uid : JValue) : GState :=
  if pyEqInt uid s.user_id then s
  else if s.other_players.any (fun k => pyEqJ k uid) then s
  else { s with other_players := s.other_players ++ [uid] }

/-- `GameWindow.remove_player_visual` (src/main.py lines 265-282): the local
id is ignored; a non-local id is popped from `other_players` when present. -/
def remove_player_visual (s : GState) (uid : JValue) : GState :=
  if pyEqInt uid s.user_id then s
  else { s with other_players := s.other_players.filter (fun k => !pyEqJ k uid) }

/-- A keyboard key, as tested by `GameWindow.keyPressEvent`. -/
inductive Key where
  | keyW
  | keyA
  | keyS
  | keyD
  | other
  deriving Repr, DecidableEq

/-- `GameWindow.keyPressEvent` (src/main.py lines 189-216): move one unit for
W/A/S/D, clamp to the grid, and only on a movement key store the position,
redraw and call `send_current_position`. -/
def keyPressEvent (st : GState) (k : Key) : GState × List Effect :=
  let step : Rat := 1
  let moved : Bool := k != Key.other
  let nx : Rat := match k with
    | .keyA => st.player_x - step
    | .keyD => st.player_x + step
    | _ => st.player_x
  let ny : Rat := match k with
    | .keyW => st.player_y - step
    | .keyS => st.player_y + step
    | _ => st.player_y
  let cx := max 0 (min nx (MAP_WIDTH_TILES - 1))
  let cy := max 0 (min ny (MAP_HEIGHT_TILES - 1))
  if moved then
    let st1 := { st with player_x := cx, player_y := cy }
    let st2 := update_player_visual st1 (.num (st1.user_id : Rat))
    send_current_position st2
  else
    (st, [])

/-- One entry of the `InitialPlayers` loop body (src/main.py lines 317-338).
The `Bool` is true when a Python exception was raised while processing the
entry (a non-dict entry makes `.get` raise `AttributeError`; a missing or
non-numeric `x`/`y`/`z` makes `float` raise); the returned state is the state
as mutated so far, since the surrounding `try` only catches at the end. -/
def processInitialEntry (s : GState) (entry : JValue) : GState × List Effect × Bool :=
  match entry with
  | .obj fs =>
    match jgetOpt fs "user_id" with
    | none => (s, [], false)
    | some .null => (s, [], false)
    | some uidVal =>
      match pyFloatOpt (jgetOpt fs "x") with
      | none => (s, [], true)
      | some x =>
        match pyFloatOpt (jgetOpt fs "y") with
        | none => (s, [], true)
        | some y =>
          match pyFloat (jgetD fs "z" (.num 0)) with
          | none => (s, [], true)
          | some z =>
            if pyEqInt uidVal s.user_id then
              let s1 := { s with player_x := x, player_y := y, player_z := z }
              if !s1.timer_started then
                let s2 := { s1 with timer_started := true }
                let r3 := send_current_position s2
                (update_player_visual r3.1 uidVal, Effect.timerStart 100 :: r3.2, false)
              else
                (update_player_visual s1 uidVal, [], false)
            else
              (update_player_visual s uidVal, [], false)
  | _ => (s, [], true)

/-- The `for player_data in payload:` loop of the `InitialPlayers` branch:
processes entries left to right, stopping at the first raised exception and
keeping the state mutated by the earlier entries. -/
def initialPlayersLoop (s : GState) : List JValue → GState × List Effect × Bool
  | [] => (s, [], false)
  | entry :: rest =>
    let r := processInitialEntry s entry
    if r.2.2 then r
    else
      let rr := initialPlayersLoop r.1 rest
      (rr.1, r.2.1 ++ rr.2.1, rr.2.2)

/-- The `PlayerPosition` branch (src/main.py lines 290-304): a missing or
`null` `user_id` is logged and dropped; `x`/`y`/`z` are converted before any
state is touched, so a conversion failure raises with the state unchanged;
the local id additionally overwrites the local position. -/
def handlePlayerPosition (s : GState) (payload : JValue) : GState × List Effect × Bool :=
  match payload with
  | .obj fs =>
    match jgetOpt fs "user_id" with
    | none => (s, [], false)
    | some .null => (s, [], false)
    | some uidVal =>
      match pyFloatOpt (jgetOpt fs "x") with
      | none => (s, [], true)
      | some x =>
        match pyFloatOpt (jgetOpt fs "y") with
        | none => (s, [], true)
        | some y =>
          match pyFloat (jgetD fs "z" (.num 0)) with
          | none => (s, [], true)
          | some z =>
            let s1 := if pyEqInt uidVal s.user_id then
                { s with player_x := x, player_y := y, player_z := z }
              else s
            (update_player_visual s1 uidVal, [], false)
  | _ => (s, [], true)

/-- The `PlayerDisconnected` branch (src/main.py lines 306-312). -/
def handlePlayerDisconnected (s : GState) (payload : JValue) : GState × List Effect × Bool :=
  match payload with
  | .obj fs =>
    match jgetOpt fs "user_id" with
    | none => (s, [], false)
    | some .null => (s, [], false)
    | some uidVal => (remove_player_visual s uidVal, [], false)
  | _ => (s, [], true)

/-- The body of the `try` in `GameWindow.websocket_on_message` after a
successful `json.loads`.  A non-dict top-level value makes `data.get` raise;
`InitialPlayers` iterates its payload only when the payload is truthy, and a
truthy non-list payload yields items on which `.get` raises (dict keys or
string characters) or is not iterable at all — modelled as raising with the
state unchanged. -/
def handleParsed (s : GState) (data : JValue) : GState × List Effect × Bool :=
  match data with
  | .obj fs =>
    let msgType := jgetOpt fs "type"
    let payload := jgetOpt fs "payload"
    if isType msgType "PlayerPosition" && truthyOpt payload then
      handlePlayerPosition s (payload.getD .null)
    else if isType msgType "PlayerDisconnected" && truthyOpt payload then
      handlePlayerDisconnected s (payload.getD .null)
    else if isType msgType "InitialPlayers" then
      if truthyOpt payload then
        match payload with
        | some (.arr entries) => initialPlayersLoop s entries
        | _ => (s, [], true)
      else (s, [], false)
    else
      (s, [], false)
  | _ => (s, [], true)

/-- `GameWindow.websocket_on_message` (src/main.py lines 284-347).  The input
is the result of `json.loads`: `none` models text that fails to decode
(`json.JSONDecodeError`), which shows a blocking `QMessageBox.critical`; any
other exception escaping the handler body likewise shows a blocking critical
dialog, with the state kept as mutated so far. -/
def websocket_on_message (s : GState) : Option JValue → GState × List Effect
  | none => (s, [Effect.dialog "json_decode_error"])
  | some data =>
    let r := handleParsed s data
    if r.2.2 then (r.1, r.2.1 ++ [Effect.dialog "message_handling_error"])
    else (r.1, r.2.1)

/-- `GameWindow.handle_websocket_close` (src/main.py lines 353-358): stops
the position timer and resets `_position_timer_started` when it was set. -/
def handle_websocket_close (s : GState) : GState × List Effect :=
  if s.timer_started then
    ({ s with timer_started := false }, [Effect.timerStop])
  else (s, [])

/-- The events delivered to `GameWindow` on the UI thread: an inbound decoded
message, the `closed` signal, the `error_occurred` signal (whose handler
calls `handle_websocket_close`), the `opened` signal, a key press, and a tick
of the 100 ms position timer. -/
inductive GEvent where
  | msg (m : Option JValue)
  | socketClosed
  | socketError (desc : String)
  | socketOpened
  | key (k : Key)
  | timerTick
  deriving Repr

/-- One UI-thread event step.  A socket close or error leaves the socket
disconnected; a timer tick fires only while the timer is running, which in
this client coincides with `_position_timer_started`. -/
def stepEvent (s : GState) : GEvent → GState × List Effect
  | .msg m => websocket_on_message s m
  | .socketClosed => handle_websocket_close { s with connected := false }
  | .socketError _ => handle_websocket_close { s with connected := false }
  | .socketOpened => ({ s with connected := true }, [])
  | .key k => keyPressEvent s k
  | .timerTick => if s.timer_started then send_current_position s else (s, [])

/-- Run a sequence of UI-thread events, accumulating effects. -/
def runEvents (s : GState) : List GEvent → GState × List Effect
  | [] => (s, [])
  | e :: es =>
    let r := stepEvent s e
    let rr := runEvents r.1 es
    (rr.1, r.2 ++ rr.2)

/-- Number of `timerStart` effects in a trace. -/
def timerStarts : List Effect → Nat
  | [] => 0
  | .timerStart _ :: rest => timerStarts rest + 1
  | _ :: rest => timerStarts rest

/-- Whether an event runs `handle_websocket_close`. -/
def isCloseEvent : GEvent → Bool
  | .socketClosed => true
  | .socketError _ => true
  | _ => false

/-! ## Transport worker (`WebSocketClientThread`) -/

/-- The worker-thread state: `self._running`. -/
structure WorkerState where
  running : Bool
  deriving Repr, DecidableEq

/-- `WebSocketClientThread.on_close` (src/main.py lines 60-63): emits the
`closed` signal and sets `_running` to `False`. -/
def on_close (w : WorkerState) : WorkerState :=
  { w with running := false }

/-- `WebSocketClientThread.stop` (src/main.py lines 108-117). -/
def stop (_ : WorkerState) : WorkerState :=
  { running := false }

/-- How one `run_forever` attempt inside `WebSocketClientThread.run` can end:
either the connection dropped and the library invoked `on_close` (the normal
path for any close, remote or local), or an exception escaped into the
`except` branch without `on_close` having run. -/
inductive RunForeverOutcome where
  | closedCallback
  | raisedBeforeClose
  deriving Repr, DecidableEq

/-- One iteration of the `while self._running` body of
`WebSocketClientThread.run` (src/main.py lines 70-93).  Returns the worker
state afterwards and whether a reconnection attempt follows (a 5 second sleep
and a new `WebSocketApp`): after a normal return the code retries only `if
self._running` (line 88), and after an exception it sleeps 5 seconds and the
loop condition re-checks `self._running`. -/
def runIteration (w : WorkerState) (o : RunForeverOutcome) : WorkerState × Bool :=
  match o with
  | .closedCallback =>
    let w1 := on_close w
    (w1, w1.running)
  | .raisedBeforeClose => (w, w.running)

/-! ## Preservation lemmas -/

theorem send_current_position_timer (s : GState) :
    (send_current_position s).1.timer_started = s.timer_started := by
  unfold send_current_position
  split <;> rfl

theorem send_current_position_starts (s : GState) :
    timerStarts (send_current_position s).2 = 0 := by
  unfold send_current_position send_message
  split <;> rfl

theorem send_current_position_px (s : GState) :
    (send_current_position s).1.player_x = s.player_x := by
  unfold send_current_position
  split <;> rfl

theorem send_current_position_py (s : GState) :
    (send_current_position s).1.player_y = s.player_y := by
  unfold send_current_position
  split <;> rfl

theorem send_current_position_pz (s : GState) :
    (send_current_position s).1.player_z = s.player_z := by
  unfold send_current_position
  split <;> rfl

theorem update_player_visual_timer (s : GState) (u : JValue) :
    (update_player_visual s u).timer_started = s.timer_started := by
  unfold update_player_visual
  split
  · rfl
  · split <;> rfl

theorem update_player_visual_px (s : GState) (u : JValue) :
    (update_player_visual s u).player_x = s.player_x := by
  unfold update_player_visual
  split
  · rfl
  · split <;> rfl

theorem update_player_visual_py (s : GState) (u : JValue) :
    (update_player_visual s u).player_y = s.player_y := by
  unfold update_player_visual
  split
  · rfl
  · split <;> rfl

theorem update_player_visual_pz (s : GState) (u : JValue) :
    (update_player_visual s u).player_z = s.player_z := by
  unfold update_player_visual
  split
  · rfl
  · split <;> rfl

theorem remove_player_visual_timer (s : GState) (u : JValue) :
    (remove_player_visual s u).timer_started = s.timer_started := by
  unfold remove_player_visual
  split <;> rfl

theorem timerStarts_append (a b : List Effect) :
    timerStarts (a ++ b) = timerStarts a + timerStarts b := by
  induction a with
  | nil => simp [timerStarts]
  | cons e rest ih =>
    cases e <;> (simp [timerStarts, ih]; try omega)

/-! ## The timer-start budget: outside of close events, the number of
`timerStart` effects an event can emit is bounded by whether
`_position_timer_started` is still false. -/

/-- 1 while the position timer has not been started, 0 afterwards. -/
def budget (s : GState) : Nat :=
  if s.timer_started then 0 else 1

theorem processInitialEntry_budget (s : GState) (entry : JValue) :
    timerStarts (processInitialEntry s entry).2.1
      + budget (processInitialEntry s entry).1 = budget s := by
  unfold processInitialEntry
  repeat' split
  all_goals cases ht : s.timer_started
  all_goals
    simp_all [budget, timerStarts, update_player_visual_timer,
      send_current_position_timer, send_current_position_starts]

theorem initialPlayersLoop_budget (entries : List JValue) : ∀ s : GState,
    timerStarts (initialPlayersLoop s entries).2.1
      + budget (initialPlayersLoop s entries).1 = budget s := by
  induction entries with
  | nil => intro s; simp [initialPlayersLoop, timerStarts]
  | cons e rest ih =>
    intro s
    have h1 := processInitialEntry_budget s e
    have h2 := ih (processInitialEntry s e).1
    cases hb : (processInitialEntry s e).2.2 <;>
      simp only [initialPlayersLoop, hb, if_true, if_false, Bool.false_eq_true,
        timerStarts_append] <;>
      omega

theorem handlePlayerPosition_budget (s : GState) (p : JValue) :
    timerStarts (handlePlayerPosition s p).2.1
      + budget (handlePlayerPosition s p).1 = budget s := by
  unfold handlePlayerPosition
  repeat' split
  all_goals
    simp_all [budget, timerStarts, update_player_visual_timer]

theorem handlePlayerDisconnected_budget (s : GState) (p : JValue) :
    timerStarts (handlePlayerDisconnected s p).2.1
      + budget (handlePlayerDisconnected s p).1 = budget s := by
  unfold handlePlayerDisconnected
  repeat' split
  all_goals
    simp_all [budget, timerStarts, remove_player_visual_timer]

theorem handleParsed_budget (s : GState) (d : JValue) :
    timerStarts (handleParsed s d).2.1
      + budget (handleParsed s d).1 = budget s := by
  cases d with
  | obj fs =>
    simp only [handleParsed]
    split
    · exact handlePlayerPosition_budget s _
    split
    · exact handlePlayerDisconnected_budget s _
    split
    · split
      · split
        · exact initialPlayersLoop_budget _ s
        · simp [budget, timerStarts]
      · simp [budget, timerStarts]
    · simp [budget, timerStarts]
  | null => simp [handleParsed, budget, timerStarts]
  | bool b => simp [handleParsed, budget, timerStarts]
  | num q => simp [handleParsed, budget, timerStarts]
  | str t => simp [handleParsed, budget, timerStarts]
  | arr xs => simp [handleParsed, budget, timerStarts]

theorem websocket_on_message_budget (s : GState) (m : Option JValue) :
    timerStarts (websocket_on_message s m).2
      + budget (websocket_on_message s m).1 = budget s := by
  cases m with
  | none => simp [websocket_on_message, timerStarts]
  | some d =>
    have h := handleParsed_budget s d
    cases hb : (handleParsed s d).2.2 <;>
      simp only [websocket_on_message, hb, if_true, if_false, Bool.false_eq_true,
        timerStarts_append] <;>
      exact h

theorem keyPressEvent_starts (s : GState) (k : Key) :
    timerStarts (keyPressEvent s k).2 = 0 := by
  cases k
  case other => rfl
  all_goals exact send_current_position_starts _

theorem keyPressEvent_timer (s : GState) (k : Key) :
    (keyPressEvent s k).1.timer_started = s.timer_started := by
  cases k
  case other => rfl
  all_goals exact (send_current_position_timer _).trans (update_player_visual_timer _ _)

theorem keyPressEvent_budget (s : GState) (k : Key) :
    timerStarts (keyPressEvent s k).2
      + budget (keyPressEvent s k).1 = budget s := by
  rw [keyPressEvent_starts]
  unfold budget
  rw [keyPressEvent_timer]
  omega

theorem stepEvent_budget (s : GState) (e : GEvent) (h : isCloseEvent e = false) :
    timerStarts (stepEvent s e).2 + budget (stepEvent s e).1 = budget s := by
  cases e with
  | msg m => exact websocket_on_message_budget s m
  | socketClosed => simp [isCloseEvent] at h
  | socketError d => simp [isCloseEvent] at h
  | socketOpened => simp [stepEvent, timerStarts, budget]
  | key k => exact keyPressEvent_budget s k
  | timerTick =>
    cases ht : s.timer_started <;>
      simp [stepEvent, ht, budget, timerStarts,
        send_current_position_starts, send_current_position_timer]

theorem runEvents_budget (es : List GEvent) : ∀ s : GState,
    (∀ e ∈ es, isCloseEvent e = false) →
    timerStarts (runEvents s es).2 + budget (runEvents s es).1 = budget s := by
  induction es with
  | nil => intro s _; simp [runEvents, timerStarts]
  | cons e rest ih =>
    intro s h
    have h1 := stepEvent_budget s e (h e (by simp))
    have h2 := ih (stepEvent s e).1 (fun x hx => h x (by simp [hx]))
    unfold runEvents
    simp only [timerStarts_append]
    omega

/-! ## Key-press characterization lemmas -/

/-- The pre-clamp target x coordinate computed by `keyPressEvent`. -/
def requestedX (s : GState) (k : Key) : Rat :=
  match k with
  | .keyA => s.player_x - 1
  | .keyD => s.player_x + 1
  | _ => s.player_x

/-- The pre-clamp target y coordinate computed by `keyPressEvent`. -/
def requestedY (s : GState) (k : Key) : Rat :=
  match k with
  | .keyW => s.player_y - 1
  | .keyS => s.player_y + 1
  | _ => s.player_y

theorem keyPressEvent_other (s : GState) : keyPressEvent s Key.other = (s, []) := rfl

theorem keyPressEvent_px (s : GState) (k : Key) (hk : k ≠ Key.other) :
    (keyPressEvent s k).1.player_x
      = max 0 (min (requestedX s k) (MAP_WIDTH_TILES - 1)) := by
  cases k
  case other => exact absurd rfl hk
  all_goals exact (send_current_position_px _).trans (update_player_visual_px _ _)

theorem keyPressEvent_py (s : GState) (k : Key) (hk : k ≠ Key.other) :
    (keyPressEvent s k).1.player_y
      = max 0 (min (requestedY s k) (MAP_HEIGHT_TILES - 1)) := by
  cases k
  case other => exact absurd rfl hk
  all_goals exact (send_current_position_py _).trans (update_player_visual_py _ _)

theorem keyPressEvent_pz (s : GState) (k : Key) :
    (keyPressEvent s k).1.player_z = s.player_z := by
  cases k
  case other => rfl
  all_goals exact (send_current_position_pz _).trans (update_player_visual_pz _ _)

/-! ## Concrete fixtures -/

/-- A fresh `GameWindow` session state for user id 1, right after the socket
has opened: position (0,0,0), no other players, the position timer not yet
started, `last_sent` at its `-1.0` sentinel (src/main.py lines 128-153). -/
def exFresh : GState :=
  { user_id := 1, player_x := 0, player_y := 0, player_z := 0,
    other_players := [], timer_started := false,
    last_sent_x := -1, last_sent_y := -1, last_sent_z := -1, connected := true }

/-- the decoded message
`{"type":"InitialPlayers","payload":[{"user_id":1,"x":2,"y":3}]}`. -/
def c5msg : JValue :=
  .obj [("type", .str "InitialPlayers"),
        ("payload", .arr [.obj [("user_id", .num 1), ("x", .num 2), ("y", .num 3)]])]

/-- an `InitialPlayers` message whose first entry is well-formed and local and
whose second entry lacks the required `x` field (so `float(None)` raises). -/
def c3msg : JValue :=
  .obj [("type", .str "InitialPlayers"),
        ("payload", .arr [.obj [("user_id", .num 1), ("x", .num 2), ("y", .num 3)],
                          .obj [("user_id", .num 2)]])]

/-- a session trace: roster sync, then a connection drop, then the roster
sync after reconnection. -/
def c2trace : List GEvent :=
  [.msg (some c5msg), .socketClosed, .msg (some c5msg)]

/-! ## Claims -/

/-- C1 counterexample: with the worker running (stop() never called), a
connection drop that runs the `on_close` callback leaves `_running = False`
and the loop performs no reconnection attempt — contradicting "every time the
connection drops … the worker waits the fixed 5-second backoff and attempts
to reconnect". -/
theorem C1_drop_via_close_not_retried :
    (WorkerState.mk true).running = true ∧
    (runIteration (WorkerState.mk true) RunForeverOutcome.closedCallback).2 = false := by
  decide

/-- C1 (amended): the worker retries (5 s sleep, new connection attempt)
exactly when `run_forever` ends without the `on_close` callback having run
and the worker has not been stopped; when the drop runs `on_close`, the
running flag is cleared and the loop exits without any retry. -/
theorem C1_reconnect_only_without_close (w : WorkerState) :
    runIteration w RunForeverOutcome.raisedBeforeClose = (w, w.running) ∧
    runIteration w RunForeverOutcome.closedCallback = (on_close w, false) :=
  ⟨rfl, rfl⟩

/-- C2 counterexample: within one session (one `GameWindow`), the trace
`InitialPlayers(local)`, socket close, `InitialPlayers(local)` starts the
position-send timer twice — the close handler resets
`_position_timer_started`, so a later `InitialPlayers` restarts the timer. -/
theorem C2_timer_restarted_after_close :
    exFresh.timer_started = false ∧
    timerStarts (runEvents exFresh c2trace).2 = 2 := by
  decide

/-- C2 (amended): between connection closes the flag transition is
one-shot — over any event sequence containing no close or error event,
starting with `_position_timer_started = false`, the timer is started at most
once, no matter how many further `InitialPlayers` messages arrive. -/
theorem C2_timer_started_once_between_closes (s : GState) (es : List GEvent)
    (h0 : s.timer_started = false) (h : ∀ e ∈ es, isCloseEvent e = false) :
    timerStarts (runEvents s es).2 ≤ 1 := by
  have hb := runEvents_budget es s h
  unfold budget at hb
  rw [h0] at hb
  cases hf : (runEvents s es).1.timer_started <;> simp [hf] at hb <;> omega

/-- C2 witness: two consecutive `InitialPlayers` containing the local id and
a timer tick, with no close in between, start the timer at most once. -/
theorem C2_timer_started_once_witness :
    timerStarts (runEvents exFresh
      [GEvent.msg (some c5msg), GEvent.msg (some c5msg), GEvent.timerTick]).2 ≤ 1 :=
  C2_timer_started_once_between_closes exFresh
    [GEvent.msg (some c5msg), GEvent.msg (some c5msg), GEvent.timerTick]
    rfl (by decide)

/-- C3 counterexample: an `InitialPlayers` message whose first entry is valid
(and local) and whose second entry lacks `x` raises mid-handling: the handler
reports an error (critical dialog) yet the state is neither fully applied nor
untouched — the local position and timer flag from the first entry stick. -/
theorem C3_partial_update_on_error :
    (websocket_on_message exFresh (some c3msg)).1.player_x = 2 ∧
    (websocket_on_message exFresh (some c3msg)).1.timer_started = true ∧
    exFresh.player_x = 0 ∧
    exFresh.timer_started = false ∧
    Effect.dialog "message_handling_error" ∈ (websocket_on_message exFresh (some c3msg)).2 := by
  decide

/-- C3 (amended): handling is atomic for JSON decode failures and for the
single-entry message kinds — a decode failure, or an error raised in the
`PlayerPosition` or `PlayerDisconnected` branch, leaves the state exactly as
it was; only a multi-entry `InitialPlayers` message can be partially
applied. -/
theorem C3_single_entry_handlers_atomic :
    (∀ s : GState, (websocket_on_message s none).1 = s) ∧
    (∀ (s : GState) (p : JValue),
      (handlePlayerPosition s p).2.2 = true → (handlePlayerPosition s p).1 = s) ∧
    (∀ (s : GState) (p : JValue),
      (handlePlayerDisconnected s p).2.2 = true → (handlePlayerDisconnected s p).1 = s) := by
  refine ⟨fun s => rfl, fun s p => ?_, fun s p => ?_⟩
  · unfold handlePlayerPosition
    repeat' split
    all_goals simp
  · unfold handlePlayerDisconnected
    repeat' split
    all_goals simp

/-- C3 witness: a `PlayerPosition` payload with `user_id` but no `x` raises
and leaves the fresh state unchanged. -/
theorem C3_single_entry_atomic_witness :
    (handlePlayerPosition exFresh (JValue.obj [("user_id", JValue.num 5)])).1 = exFresh :=
  C3_single_entry_handlers_atomic.2.1 exFresh (JValue.obj [("user_id", JValue.num 5)]) rfl

/-- C4: when the local position differs from the last sent position, a call
to `send_current_position` submits exactly one `PlayerPosition` frame and
records the position; an immediately following call with the position
unchanged submits nothing. -/
theorem C4_identical_consecutive_sends_one_frame (s : GState)
    (h : s.last_sent_x ≠ s.player_x ∨ s.last_sent_y ≠ s.player_y
        ∨ s.last_sent_z ≠ s.player_z) :
    (send_current_position s).2 =
      [Effect.send (OutMsg.playerPosition
        { user_id := s.user_id, x := s.player_x, y := s.player_y, z := s.player_z })
        s.connected] ∧
    send_current_position (send_current_position s).1 = ((send_current_position s).1, []) := by
  have hc : (s.last_sent_x != s.player_x || s.last_sent_y != s.player_y
      || s.last_sent_z != s.player_z) = true := by
    rcases h with h | h | h <;> simp [bne_iff_ne, h]
  have h1 : (send_current_position s).1 =
      { s with
        last_sent_x := s.player_x, last_sent_y := s.player_y,
        last_sent_z := s.player_z } := by
    unfold send_current_position
    split
    · rfl
    · next hcond => exact absurd hc hcond
  refine ⟨?_, ?_⟩
  · unfold send_current_position
    split
    · rfl
    · next hcond => exact absurd hc hcond
  · rw [h1]
    simp [send_current_position]

/-- C4 witness: from the fresh state moved to (2,3,0), the first call
transmits one frame and the second call transmits nothing. -/
theorem C4_identical_consecutive_sends_witness :
    (send_current_position { exFresh with player_x := 2, player_y := 3 }).2 =
      [Effect.send (OutMsg.playerPosition { user_id := 1, x := 2, y := 3, z := 0 }) true] ∧
    send_current_position
        (send_current_position { exFresh with player_x := 2, player_y := 3 }).1 =
      ((send_current_position { exFresh with player_x := 2, player_y := 3 }).1, []) :=
  C4_identical_consecutive_sends_one_frame
    { exFresh with player_x := 2, player_y := 3 } (by decide)

/-- C5: from a fresh session with local id 1, the message
`{"type":"InitialPlayers","payload":[{"user_id":1,"x":2,"y":3}]}` sets the
local position to (2,3,0), starts the broadcast timer (flag true, one
`timerStart 100` effect), and submits exactly one `PlayerPosition` frame with
user id 1 and position (2,3,0), recording it as last sent. -/
theorem C5_initial_players_end_to_end :
    websocket_on_message exFresh (some c5msg) =
      ({ exFresh with
          player_x := 2, player_y := 3, player_z := 0, timer_started := true,
          last_sent_x := 2, last_sent_y := 3, last_sent_z := 0 },
       [Effect.timerStart 100,
        Effect.send (OutMsg.playerPosition { user_id := 1, x := 2, y := 3, z := 0 }) true]) := by
  rfl

/-- C6: a `PlayerDisconnected` message whose `user_id` equals the local
session id is a complete no-op — state (players, position, flag) identical
and no effects. -/
theorem C6_disconnect_local_noop (s : GState) :
    websocket_on_message s
      (some (JValue.obj [("type", JValue.str "PlayerDisconnected"),
        ("payload", JValue.obj [("user_id", JValue.num (s.user_id : Rat))])])) =
      (s, []) := by
  simp [websocket_on_message, handleParsed, jgetOpt, isType, truthyOpt, JValue.truthy,
    handlePlayerDisconnected, remove_player_visual, pyEqInt]

/-- C7: every W/A/S/D key press stores x clamped to [0, width-1] and y
clamped to [0, height-1] and leaves z unclamped and unchanged; concretely, a
requested x of -5 stores 0 and a requested x of 45 stores 39. -/
theorem C7_movement_clamped :
    (∀ (s : GState) (k : Key), k ≠ Key.other →
      (keyPressEvent s k).1.player_x
          = max 0 (min (requestedX s k) (MAP_WIDTH_TILES - 1)) ∧
        (keyPressEvent s k).1.player_y
          = max 0 (min (requestedY s k) (MAP_HEIGHT_TILES - 1)) ∧
        (keyPressEvent s k).1.player_z = s.player_z) ∧
    requestedX { exFresh with player_x := -4 } Key.keyA = -5 ∧
    (keyPressEvent { exFresh with player_x := -4 } Key.keyA).1.player_x = 0 ∧
    requestedX { exFresh with player_x := 44 } Key.keyD = 45 ∧
    (keyPressEvent { exFresh with player_x := 44 } Key.keyD).1.player_x = 39 := by
  refine ⟨fun s k hk => ⟨keyPressEvent_px s k hk, keyPressEvent_py s k hk,
    keyPressEvent_pz s k⟩, ?_, ?_, ?_, ?_⟩
  · norm_num [requestedX, exFresh]
  · rw [keyPressEvent_px _ _ (by decide)]
    norm_num [requestedX, exFresh, MAP_WIDTH_TILES]
  · norm_num [requestedX, exFresh]
  · rw [keyPressEvent_px _ _ (by decide)]
    norm_num [requestedX, exFresh, MAP_WIDTH_TILES]

/-- C7 witness: a D press from the fresh state stores the clamped
coordinates. -/
theorem C7_movement_clamped_witness :
    (keyPressEvent exFresh Key.keyD).1.player_x
        = max 0 (min (requestedX exFresh Key.keyD) (MAP_WIDTH_TILES - 1)) ∧
      (keyPressEvent exFresh Key.keyD).1.player_y
        = max 0 (min (requestedY exFresh Key.keyD) (MAP_HEIGHT_TILES - 1)) ∧
      (keyPressEvent exFresh Key.keyD).1.player_z = exFresh.player_z :=
  C7_movement_clamped.1 exFresh Key.keyD (by decide)

/-- C8 counterexample: a message that fails JSON decoding produces a blocking
`QMessageBox.critical` dialog (the `dialog` effect), so decode errors are
surfaced to the user — contradicting "logged only and never surfaced as a
blocking notification". -/
theorem C8_decode_error_shows_dialog :
    Effect.dialog "json_decode_error" ∈ (websocket_on_message exFresh none).2 := by
  decide

/-- C8 (amended): a decode failure is surfaced as one blocking critical
dialog; the handler leaves the whole state (players, position, flag,
connection) unchanged and performs no connection-closing or timer effect, so
the connection itself stays open. -/
theorem C8_decode_error_dialog_state_unchanged (s : GState) :
    websocket_on_message s none = (s, [Effect.dialog "json_decode_error"]) :=
  rfl

/-- C9: when the position differs from the last sent one,
`send_current_position` updates `last_sent_*` even with the socket
disconnected — the frame is submitted undelivered (silently dropped by
`send_message`) — and a subsequent call after reconnection with the position
unchanged transmits nothing. -/
theorem C9_lastSent_advances_while_disconnected (s : GState)
    (hconn : s.connected = false)
    (h : s.last_sent_x ≠ s.player_x ∨ s.last_sent_y ≠ s.player_y
        ∨ s.last_sent_z ≠ s.player_z) :
    (send_current_position s).1.last_sent_x = s.player_x ∧
    (send_current_position s).1.last_sent_y = s.player_y ∧
    (send_current_position s).1.last_sent_z = s.player_z ∧
    (send_current_position s).2 =
      [Effect.send (OutMsg.playerPosition
        { user_id := s.user_id, x := s.player_x, y := s.player_y, z := s.player_z })
        false] ∧
    send_current_position { (send_current_position s).1 with connected := true } =
      ({ (send_current_position s).1 with connected := true }, []) := by
  have hc : (s.last_sent_x != s.player_x || s.last_sent_y != s.player_y
      || s.last_sent_z != s.player_z) = true := by
    rcases h with h | h | h <;> simp [bne_iff_ne, h]
  have h1 : (send_current_position s).1 =
      { s with
        last_sent_x := s.player_x, last_sent_y := s.player_y,
        last_sent_z := s.player_z } := by
    unfold send_current_position
    split
    · rfl
    · next hcond => exact absurd hc hcond
  refine ⟨by rw [h1], by rw [h1], by rw [h1], ?_, ?_⟩
  · unfold send_current_position
    split
    · simp [send_message, hconn]
    · next hcond => exact absurd hc hcond
  · rw [h1]
    simp [send_current_position]

/-- C9 witness: from the fresh state at (2,3,0) with the socket down, the
frame is dropped, `last_sent` advances, and nothing is retransmitted after
reconnection. -/
theorem C9_lastSent_advances_witness :
    (send_current_position
        { exFresh with player_x := 2, player_y := 3, connected := false }).1.last_sent_x = 2 ∧
    (send_current_position
        { exFresh with player_x := 2, player_y := 3, connected := false }).1.last_sent_y = 3 ∧
    (send_current_position
        { exFresh with player_x := 2, player_y := 3, connected := false }).1.last_sent_z = 0 ∧
    (send_current_position
        { exFresh with player_x := 2, player_y := 3, connected := false }).2 =
      [Effect.send (OutMsg.playerPosition { user_id := 1, x := 2, y := 3, z := 0 }) false] ∧
    send_current_position
        { (send_current_position
            { exFresh with player_x := 2, player_y := 3, connected := false }).1 with
          connected := true } =
      ({ (send_current_position
            { exFresh with player_x := 2, player_y := 3, connected := false }).1 with
         connected := true }, []) :=
  C9_lastSent_advances_while_disconnected
    { exFresh with player_x := 2, player_y := 3, connected := false } rfl (by decide)

/-- C10: any key press from an in-bounds position stays in bounds
(x in [0,39], y in [0,19]) and never changes z; a key that is none of
W/A/S/D leaves the state untouched and transmits nothing. -/
theorem C10_keypress_preserves_bounds (s : GState) (k : Key)
    (hx0 : 0 ≤ s.player_x) (hx1 : s.player_x ≤ 39)
    (hy0 : 0 ≤ s.player_y) (hy1 : s.player_y ≤ 19) :
    (0 ≤ (keyPressEvent s k).1.player_x ∧ (keyPressEvent s k).1.player_x ≤ 39 ∧
      0 ≤ (keyPressEvent s k).1.player_y ∧ (keyPressEvent s k).1.player_y ≤ 19 ∧
      (keyPressEvent s k).1.player_z = s.player_z) ∧
    (k = Key.other → keyPressEvent s k = (s, [])) := by
  by_cases hk : k = Key.other
  · subst hk
    rw [keyPressEvent_other]
    exact ⟨⟨hx0, hx1, hy0, hy1, rfl⟩, fun _ => rfl⟩
  · rw [keyPressEvent_px s k hk, keyPressEvent_py s k hk]
    refine ⟨⟨le_max_left 0 _, ?_, le_max_left 0 _, ?_, keyPressEvent_pz s k⟩,
      fun hko => absurd hko hk⟩
    · exact max_le (by norm_num)
        ((min_le_right _ _).trans (by norm_num [MAP_WIDTH_TILES]))
    · exact max_le (by norm_num)
        ((min_le_right _ _).trans (by norm_num [MAP_HEIGHT_TILES]))

/-- C10 witness: a W press and a non-movement key from the fresh state. -/
theorem C10_keypress_preserves_bounds_witness :
    ((0 ≤ (keyPressEvent exFresh Key.keyW).1.player_x ∧
       (keyPressEvent exFresh Key.keyW).1.player_x ≤ 39 ∧
       0 ≤ (keyPressEvent exFresh Key.keyW).1.player_y ∧
       (keyPressEvent exFresh Key.keyW).1.player_y ≤ 19 ∧
       (keyPressEvent exFresh Key.keyW).1.player_z = exFresh.player_z) ∧
     (Key.keyW = Key.other → keyPressEvent exFresh Key.keyW = (exFresh, []))) ∧
    ((0 ≤ (keyPressEvent exFresh Key.other).1.player_x ∧
       (keyPressEvent exFresh Key.other).1.player_x ≤ 39 ∧
       0 ≤ (keyPressEvent exFresh Key.other).1.player_y ∧
       (keyPressEvent exFresh Key.other).1.player_y ≤ 19 ∧
       (keyPressEvent exFresh Key.other).1.player_z = exFresh.player_z) ∧
     (Key.other = Key.other → keyPressEvent exFresh Key.other = (exFresh, []))) :=
  ⟨C10_keypress_preserves_bounds exFresh Key.keyW
      (by norm_num [exFresh]) (by norm_num [exFresh])
      (by norm_num [exFresh]) (by norm_num [exFresh]),
    C10_keypress_preserves_bounds exFresh Key.other
      (by norm_num [exFresh]) (by norm_num [exFresh])
      (by norm_num [exFresh]) (by norm_num [exFresh])⟩

end HeroesClient
